import Mathlib

/-!
Shallow embedding of `nbudget.py` (tfari/nbudget), a CLI client for a budget
database in Notion. The embedding models the `NBudgetController` class:
`_format_date`, `_api_call` error classification, `get_tags`, `get_count`,
`insert_record`, and `__init__`, together with the small pieces of Python
builtin behaviour they rely on (`str.split`, `int()`, `datetime.date`,
`str()`/`repr()` of dicts, `str.replace`, dict lookup / `KeyError`, and the
truthiness rules used by `if`/`while`).

Conventions:
* Python exceptions that the code raises deliberately through
  `_wrap_error` become the `NBError` inductive; raw Python exceptions that
  escape (KeyError, TypeError, ...) become `PyExc`.  `Failure` is their sum.
  We model the `raises=True` delivery mode: `_wrap_error` raises the given
  exception type.  (With `raises=False` the same classified error is printed
  and the process exits; the classification itself is identical.)
* JSON values (`json.loads` results and the payload dict the code builds)
  are the `JValue` inductive.  Numbers are modelled as rationals: the only
  arithmetic performed on them (negation, addition) is exact for floats,
  and the only numbers the code ever renders are Python floats such as
  `-1200.0` (rendered by `pyFloatRepr`).
* Recursive renderers over `JValue` use a fuel parameter so that every
  definition is structurally recursive and kernel-computable; the fuel is
  far larger than the depth of any value the program builds.
-/

/-! ## Python string helpers: split, replace, int() -/

/-- Character-level split, mirroring Python `str.split(sep)` for a one-char
separator: `"".split(sep) == [""]`, separators at the ends produce empty
fields. -/
def splitChars (a : Char) : List Char → List (List Char)
  | [] => [[]]
  | c :: cs =>
    if c = a then [] :: splitChars a cs
    else
      match splitChars a cs with
      | [] => [[c]]
      | h :: t => (c :: h) :: t

/-- Python `s.split(sep)` for a single-character separator. -/
def pySplit (s : String) (a : Char) : List String :=
  (splitChars a s.data).map List.asString

/-- Python `s.replace(old, new)` for one-character `old` and `new`. -/
def charReplace (s : String) (a b : Char) : String :=
  (s.data.map (fun c => if c = a then b else c)).asString

/-- Whitespace recognised by Python `int()` stripping (the cases that
matter for this program: space, tab, newline, carriage return). -/
def isSp (c : Char) : Bool :=
  c = ' ' || c = '\t' || c = '\n' || c = '\r'

/-- ASCII decimal digit test. -/
def isDig (c : Char) : Bool :=
  48 ≤ c.toNat && c.toNat ≤ 57

/-- Numeric value of an ASCII digit character. -/
def dVal (c : Char) : Nat := c.toNat - 48

/-- ASCII digit character for a digit value. -/
def dChar (d : Nat) : Char := Char.ofNat (48 + d)

/-- Strip leading and trailing whitespace. -/
def trimSpaces (cs : List Char) : List Char :=
  ((cs.dropWhile isSp).reverse.dropWhile isSp).reverse

/-- Parse a non-empty all-digit character list as a natural number
(big-endian), as Python `int()` does after sign/whitespace handling. -/
def parseNat (cs : List Char) : Option Nat :=
  if cs ≠ [] ∧ cs.all isDig then
    some (cs.foldl (fun a c => 10 * a + dVal c) 0)
  else none

/-- Sign-and-digits step of Python `int()`, after whitespace stripping. -/
def pyIntCore : List Char → Option Int
  | [] => none
  | c :: rest =>
    if c = '+' then (parseNat rest).map Int.ofNat
    else if c = '-' then (parseNat rest).map (fun n => -(n : Int))
    else (parseNat (c :: rest)).map Int.ofNat

/-- Python `int(s)` on the character list of `s`: strip whitespace, allow a
single leading sign, then decimal digits; anything else raises `ValueError`
(modelled as `none`). -/
def pyIntChars (cs : List Char) : Option Int :=
  pyIntCore (trimSpaces cs)

/-- Python `int(s)` (`none` models `ValueError`). -/
def pyInt (s : String) : Option Int := pyIntChars s.data

/-- Little-endian decimal digits of `n`, with fuel (`fuel ≥ n` suffices). -/
def digitsAux : Nat → Nat → List Nat
  | 0, _ => []
  | _ + 1, 0 => []
  | f + 1, n + 1 => ((n + 1) % 10) :: digitsAux f ((n + 1) / 10)

/-- Big-endian decimal digits of `n` (empty for `0`). -/
def digitsBE (n : Nat) : List Nat := (digitsAux n n).reverse

/-- Decimal rendering of a natural number. -/
def natRepr (n : Nat) : String :=
  if n = 0 then "0" else ((digitsBE n).map dChar).asString

/-- Python `str()` of an int. -/
def intRepr (i : Int) : String :=
  if i < 0 then "-" ++ natRepr i.natAbs else natRepr i.natAbs

/-- Zero-pad the decimal rendering of `n` to width `w` (as
`datetime.date.isoformat` does for year/month/day). -/
def padN (w : Nat) (n : Nat) : String :=
  (List.replicate (w - (digitsBE n).length) '0' ++ (digitsBE n).map dChar).asString

/-- Join a list of strings with a separator, as Python `sep.join(xs)`. -/
def sepJoin (sep : String) : List String → String
  | [] => ""
  | [x] => x
  | x :: xs => x ++ sep ++ sepJoin sep xs

/-! ## datetime.date -/

/-- A `datetime.date`: the constructor validates the ranges, so a value of
this structure is only ever built through `mkDate`. -/
structure PyDate where
  year : Int
  month : Int
  day : Int
deriving DecidableEq

/-- Gregorian leap-year rule used by `datetime`. -/
def isLeap (y : Int) : Bool :=
  y % 4 = 0 && (y % 100 ≠ 0 || y % 400 = 0)

/-- Days in a month per `datetime`. -/
def daysInMonth (y m : Int) : Int :=
  if m = 2 then (if isLeap y then 29 else 28)
  else if m = 4 ∨ m = 6 ∨ m = 9 ∨ m = 11 then 30
  else 31

/-- `datetime.date(y, m, d)`: `none` models the `ValueError` raised for
out-of-range components (`MINYEAR = 1`, `MAXYEAR = 9999`). -/
def mkDate (y m d : Int) : Option PyDate :=
  if 1 ≤ y ∧ y ≤ 9999 ∧ 1 ≤ m ∧ m ≤ 12 ∧ 1 ≤ d ∧ d ≤ daysInMonth y m then
    some ⟨y, m, d⟩
  else none

/-- `date.isoformat()`: `YYYY-MM-DD`, zero padded. -/
def isoformat (d : PyDate) : String :=
  padN 4 d.year.toNat ++ "-" ++ padN 2 d.month.toNat ++ "-" ++ padN 2 d.day.toNat

/-! ## Error taxonomy -/

/-- Exception classes nested inside `NBudgetController`, raised through
`_wrap_error` (modelled in the `raises=True` delivery mode).  Each carries
the `error_msg` string it is constructed with. -/
inductive NBError where
  | invalidDateRange (msg : String)
  | invalidDate (msg : String)
  | invalidDateFormat (msg : String)
  | apiError (msg : String)
  | httpError (msg : String)
  | apiParsingError (msg : String)
  | invalidTag (msg : String)
deriving DecidableEq

/-- Raw Python exceptions that can escape the code un-wrapped. -/
inductive PyExc where
  | keyError (key : String)
  | typeError
  | stopIteration
deriving DecidableEq

/-- Outcome of a failed operation: either a deliberately raised controller
error or an escaped Python exception. -/
inductive Failure where
  | nb (e : NBError)
  | py (e : PyExc)
deriving DecidableEq

/-- True exactly for the controller's `HTTPError` exception type. -/
def Failure.isHTTPError : Failure → Bool
  | .nb (.httpError _) => true
  | _ => false

/-! ## _format_date -/

/-- Python `list.index(x)`: index of the first occurrence, `none` models
`ValueError`. -/
def pyIndex : List String → String → Option Nat
  | [], _ => none
  | x :: xs, t =>
    if x = t then some 0
    else (pyIndex xs t).map (· + 1)

/-- Final step of `_format_date`: `datetime.date(int(year), int(month),
int(day))` with `ValueError` (from `int` or from `date`) caught and
re-raised as `InvalidDateRange(date)`. -/
def resolveYMD (date ys ms ds : String) : Except NBError PyDate :=
  match pyInt ys, pyInt ms, pyInt ds with
  | some y, some m, some d =>
    match mkDate y m d with
    | some dt => .ok dt
    | none => .error (.invalidDateRange date)
  | _, _, _ => .error (.invalidDateRange date)

/-- Index extraction of `_format_date`: `split_date[split_date_input_format
.index(tok)]`, evaluated for Y then M then D as in the source tuple
assignment; a failed `.index` raises `ValueError` → `InvalidDateFormat
(date_input_format)`, an out-of-range data index raises `IndexError` →
`InvalidDate(date)`. -/
def resolveSplit (sd sf : List String) (date fmt : String) : Except NBError PyDate :=
  match pyIndex sf "Y" with
  | none => .error (.invalidDateFormat fmt)
  | some iy =>
    match sd.get? iy with
    | none => .error (.invalidDate date)
    | some ys =>
      match pyIndex sf "M" with
      | none => .error (.invalidDateFormat fmt)
      | some im =>
        match sd.get? im with
        | none => .error (.invalidDate date)
        | some ms =>
          match pyIndex sf "D" with
          | none => .error (.invalidDateFormat fmt)
          | some id_ =>
            match sd.get? id_ with
            | none => .error (.invalidDate date)
            | some ds => resolveYMD date ys ms ds

/-- `NBudgetController._format_date(date, date_input_format)`: both strings
are split on `/` (the separator is hardcoded in the source). -/
def formatDate (date fmt : String) : Except NBError PyDate :=
  resolveSplit (pySplit date '/') (pySplit fmt '/') date fmt

/-! ## JSON values and Python dict/list semantics -/

/-- A parsed JSON value / Python object as handled by the program.
`num` models Python numbers with exact rationals (see the header note). -/
inductive JValue where
  | null
  | bool (b : Bool)
  | num (q : ℚ)
  | str (s : String)
  | arr (xs : List JValue)
  | obj (kvs : List (String × JValue))

/-- First-match lookup in an association list (Python dict lookup; the
dicts the program handles have unique keys). -/
def lookupKV : List (String × JValue) → String → Option JValue
  | [], _ => none
  | (k, v) :: rest, t => if k = t then some v else lookupKV rest t

/-- Python subscription `v[k]` with a string key: dicts either produce the
value or raise `KeyError(k)`; every other type raises `TypeError`. -/
def jLookupExc (v : JValue) (k : String) : Except PyExc JValue :=
  match v with
  | .obj kvs =>
    match lookupKV kvs k with
    | some x => .ok x
    | none => .error (.keyError k)
  | _ => .error (.typeError)

/-- Python iteration `for x in v`: lists yield elements, strings yield
one-character strings, dicts yield their keys; other values raise
`TypeError`. -/
def jIterExc (v : JValue) : Except PyExc (List JValue) :=
  match v with
  | .arr xs => .ok xs
  | .str s => .ok (s.data.map (fun c => .str (String.mk [c])))
  | .obj kvs => .ok (kvs.map (fun kv => .str kv.1))
  | _ => .error (.typeError)

/-- Python truthiness of a parsed JSON value (`if` / `while` conditions). -/
def jTruthy : JValue → Bool
  | .null => false
  | .bool b => b
  | .num q => q ≠ 0
  | .str s => s ≠ ""
  | .arr xs => !xs.isEmpty
  | .obj kvs => !kvs.isEmpty

/-- Python `t in xs` for a string `t` and a list of values: `==` between a
string and a non-string is `False`. -/
def jvalMem (t : String) (xs : List JValue) : Bool :=
  xs.any (fun v => match v with | .str s => s = t | _ => false)

/-- True when `cs` occurs as a contiguous run inside `hay` (Python
substring test `needle in hay`). -/
def leadsWith : List Char → List Char → Bool
  | [], _ => true
  | _ :: _, [] => false
  | a :: as, b :: bs => a = b && leadsWith as bs

/-- Substring occurrence test over character lists. -/
def occursIn (needle : List Char) : List Char → Bool
  | [] => needle = []
  | c :: cs => leadsWith needle (c :: cs) || occursIn needle cs

/-- Python containment `k in v` for a string `k`: dicts test keys, lists
test membership, strings test substring occurrence; other values raise
`TypeError`. -/
def jContains (v : JValue) (k : String) : Except PyExc Bool :=
  match v with
  | .obj kvs => .ok (kvs.any (fun kv => kv.1 = k))
  | .arr xs => .ok (jvalMem k xs)
  | .str s => .ok (occursIn k.data s.data)
  | _ => .error (.typeError)

/-- Python `next(iter(v))`: the first key of a dict, element of a list, or
character of a string; empty containers raise `StopIteration`, other values
`TypeError`. -/
def pyNextIter (v : JValue) : Except PyExc JValue :=
  match v with
  | .obj ((k, _) :: _) => .ok (.str k)
  | .obj [] => .error (.stopIteration)
  | .arr (x :: _) => .ok x
  | .arr [] => .error (.stopIteration)
  | .str s =>
    match s.data with
    | [] => .error (.stopIteration)
    | c :: _ => .ok (.str (String.mk [c]))
  | _ => .error (.typeError)

/-- Python dict assignment `d[k] = v` on an association list: replaces the
value in place if the key exists, appends otherwise. -/
def pyUpdate : List (String × JValue) → String → JValue → List (String × JValue)
  | [], k, v => [(k, v)]
  | (k0, v0) :: rest, k, v =>
    if k0 = k then (k, v) :: rest else (k0, v0) :: pyUpdate rest k v

/-! ## Python str()/repr() and json serialization of values -/

/-- Python float repr for the numbers the program renders: every number the
code ever stringifies is a Python float with an integral value (amounts),
printed as `<int>.0`.  Non-integral rationals (never produced by the
embedded operations) fall back to a fraction rendering. -/
def pyFloatRepr (q : ℚ) : String :=
  if q.den = 1 then intRepr q.num ++ ".0"
  else intRepr q.num ++ "/" ++ natRepr q.den

/-- Python `repr` of a string: prefers single quotes, switches to double
quotes when the string contains a single quote but no double quote;
escapes backslashes and the chosen quote. -/
def pyReprStr (s : String) : String :=
  let q : Char :=
    if s.data.any (fun c => c = '\x27') && !(s.data.any (fun c => c = '\x22')) then '\x22'
    else '\x27'
  let body := s.data.map (fun c =>
    if c = '\\' then "\\\\"
    else if c = q then "\\" ++ String.mk [c]
    else if c = '\n' then "\\n"
    else if c = '\t' then "\\t"
    else if c = '\r' then "\\r"
    else String.mk [c])
  String.mk [q] ++ String.join body ++ String.mk [q]

/-- Python `str()`/`repr()` of a value, with recursion fuel (dicts and
lists render via `repr`; `str` of a top-level string is handled separately
by `fStr`). -/
def pyStrF : Nat → JValue → String
  | 0, _ => ""
  | _ + 1, .null => "None"
  | _ + 1, .bool true => "True"
  | _ + 1, .bool false => "False"
  | _ + 1, .num q => pyFloatRepr q
  | _ + 1, .str s => pyReprStr s
  | f + 1, .arr xs => "[" ++ sepJoin ", " (xs.map (pyStrF f)) ++ "]"
  | f + 1, .obj kvs =>
    "\x7b" ++ sepJoin ", " (kvs.map (fun kv => pyReprStr kv.1 ++ ": " ++ pyStrF f kv.2)) ++ "\x7d"

/-- Python `str()`/`repr()` of a value (fuel fixed far above the depth of
any value the program builds). -/
def pyStr (v : JValue) : String := pyStrF 1000 v

/-- Python `str()` inside an f-string: strings render bare, everything
else as `repr`. -/
def fStr (v : JValue) : String :=
  match v with
  | .str s => s
  | v => pyStr v

/-- JSON escape of a string (the `json.dumps` rules for the characters
this program can produce). -/
def jsonStrLit (s : String) : String :=
  let body := s.data.map (fun c =>
    if c = '\\' then "\\\\"
    else if c = '\x22' then "\\\x22"
    else if c = '\n' then "\\n"
    else if c = '\t' then "\\t"
    else if c = '\r' then "\\r"
    else String.mk [c])
  "\x22" ++ String.join body ++ "\x22"

/-- Modelled from the spec: the reference JSON serialization of the built
payload (`json.dumps` with its default separators), which the spec's wire
format implicitly promises; the source never calls it, encoding with
`str(data).replace` instead.  Used only as the comparison target for the
encoding claim. -/
def jsonDumpsF : Nat → JValue → String
  | 0, _ => ""
  | _ + 1, .null => "null"
  | _ + 1, .bool true => "true"
  | _ + 1, .bool false => "false"
  | _ + 1, .num q => pyFloatRepr q
  | _ + 1, .str s => jsonStrLit s
  | f + 1, .arr xs => "[" ++ sepJoin ", " (xs.map (jsonDumpsF f)) ++ "]"
  | f + 1, .obj kvs =>
    "\x7b" ++ sepJoin ", " (kvs.map (fun kv => jsonStrLit kv.1 ++ ": " ++ jsonDumpsF f kv.2)) ++ "\x7d"

/-- Reference JSON serialization (see `jsonDumpsF`). -/
def jsonDumps (v : JValue) : String := jsonDumpsF 1000 v

/-! ## Settings and controller construction -/

/-- The settings mapping handed to `NBudgetController.__init__` (the JSON
object from `settings.json` or `get_default_settings`). -/
def Settings := List (String × String)

/-- Dict lookup in a settings mapping. -/
def sLookup : List (String × String) → String → Option String
  | [], _ => none
  | (k, v) :: rest, t => if k = t then some v else sLookup rest t

/-- Python `settings[k]`: `KeyError` when the key is absent. -/
def sGet (st : Settings) (k : String) : Except PyExc String :=
  match sLookup st k with
  | some v => .ok v
  | none => .error (.keyError k)

/-- The nine keys `_SETTINGS_KEY_VALIDATION` requires (validated in the
`_read_settings` collaborator, not in the controller). -/
def settingsKeyValidation : List String :=
  ["database_id", "api_key", "date_input_format", "tag_separator",
   "type_name", "date_name", "concept_name", "amount_name", "tags_name"]

/-- `get_default_settings(database_id, api_key)`. -/
def getDefaultSettings (databaseId apiKey : String) : Settings :=
  [("database_id", databaseId), ("api_key", apiKey),
   ("date_input_format", "D/M/Y"), ("tag_separator", "\n"),
   ("type_name", "Type"), ("date_name", "Date"),
   ("concept_name", "Concept"), ("amount_name", "Amount"),
   ("tags_name", "Tags")]

/-- State built by `NBudgetController.__init__`. -/
structure Ctl where
  settings : Settings
  databaseQueryUrl : String
  databaseContentsQuery : String
  authHeader : String

/-- `NBudgetController.__init__(settings)`: the only settings accesses are
`settings['database_id']` (for the two URL templates) and
`settings['api_key']` (for the Authorization header); no other key is
touched and no validation of the nine keys happens here. -/
def initController (st : Settings) : Except PyExc Ctl :=
  match sGet st "database_id" with
  | .error e => .error e
  | .ok dbid =>
    match sGet st "api_key" with
    | .error e => .error e
    | .ok key =>
      .ok ⟨st, "https://api.notion.com/v1/databases/" ++ dbid,
           "https://api.notion.com/v1/databases/" ++ dbid ++ "/query",
           "Bearer " ++ key⟩

/-! ## _api_call error classification -/

/-- Message of the 403 hint branch (f-string in the source, with
`exception.code` interpolated — always 403 on this branch). -/
def uaHintMsg (status : Int) : String :=
  intRepr status ++ " -> Check your UA if you have modified the script"

/-- Classification of a failed `urllib` request inside `_api_call`
(`except HTTPError` branch).  `status` is `exception.code`; `body` is the
result of `json.loads(exception.read())`, with `none` standing for a
`json.decoder.JSONDecodeError`.  Mirrors the source exactly: only a JSON
decode failure is caught by the inner `except`, so `KeyError`/`TypeError`
from `err_json["code"]` / `err_json["message"]` escape un-wrapped. -/
def classifyHTTPError (status : Int) (body : Option JValue) : Failure :=
  match body with
  | some j =>
    match jLookupExc j "code" with
    | .error e => .py e
    | .ok c =>
      match jLookupExc j "message" with
      | .error e => .py e
      | .ok m => .nb (.apiError (fStr c ++ " -> " ++ fStr m))
  | none =>
    if status = 403 then .nb (.httpError (uaHintMsg status))
    else .nb (.httpError (intRepr status))

/-! ## get_tags -/

/-- Message of the unrecognizable-response branch of `get_tags`. -/
def didNotUnderstandMsg (response : JValue) : String :=
  "Did not understand API response: " ++ pyStr response

/-- Message of the missing-tag-column branch when at least one other
`multi_select` column exists (a single f-string template; the candidate
names are joined with a comma for any candidate count ≥ 1). -/
def couldItBeMsg (tagsName : String) (cands : List String) : String :=
  "Column with name \x22" ++ tagsName ++ "\x22 does not exist in the Notion database. " ++
  "Could it be one of these: " ++ sepJoin ", " cands ++
  "? If one is then change \x22tag_name\x22 in the settings file for it."

/-- Message of the missing-tag-column branch when no `multi_select`
column exists. -/
def noMultiSelectMsg : String :=
  "No multi_select type column found in Notion database."

/-- Message of the wrong-column-type branch. -/
def wrongTypeMsg (tagsName : String) (wrongType : JValue) : String :=
  "Type of the " ++ tagsName ++ " column is: \x22" ++ fStr wrongType ++
  "\x22. Must be \x22multi_select\x22"

/-- The list comprehension
`[o['name'] for o in properties[tags_column_name]['multi_select']['options']]`
with Python exception flow (each step can raise `KeyError`/`TypeError`). -/
def tagOptions (props : JValue) (tagsName : String) : Except PyExc (List JValue) :=
  match jLookupExc props tagsName with
  | .error e => .error e
  | .ok col =>
    match jLookupExc col "multi_select" with
    | .error e => .error e
    | .ok ms =>
      match jLookupExc ms "options" with
      | .error e => .error e
      | .ok opts =>
        match jIterExc opts with
        | .error e => .error e
        | .ok items => items.mapM (fun o => jLookupExc o "name")

/-- `[key for key in properties if 'multi_select' in properties[key]]` over
the entries of a dict. -/
def candAux : List (String × JValue) → Except PyExc (List String)
  | [] => .ok []
  | (k, v) :: rest => do
    let b ← jContains v "multi_select"
    let r ← candAux rest
    .ok (if b then k :: r else r)

/-- Candidate columns for the missing-tag-column diagnostics; `properties`
is a dict on every path that reaches this expression (a non-dict would have
raised `TypeError`, not `KeyError`, at `properties[tags_column_name]`). -/
def multiSelectCandidates (props : JValue) : Except PyExc (List String) :=
  match props with
  | .obj kvs => candAux kvs
  | _ => .error (.typeError)

/-- `NBudgetController.get_tags()` applied to the parsed response of the
database-query endpoint (`tagsName` is `settings['tags_name']`).  Returns
the option-name values (and in the source also stores them in
`self.tags_cache`). -/
def getTags (tagsName : String) (response : JValue) : Except Failure (List JValue) :=
  match jLookupExc response "properties" with
  | .error (.keyError _) => .error (.nb (.apiParsingError (didNotUnderstandMsg response)))
  | .error e => .error (.py e)
  | .ok props =>
    match tagOptions props tagsName with
    | .ok options => .ok options
    | .error (.keyError k) =>
      if k = tagsName then
        match multiSelectCandidates props with
        | .error e => .error (.py e)
        | .ok cands =>
          if 1 ≤ cands.length then
            .error (.nb (.apiParsingError (couldItBeMsg tagsName cands)))
          else
            .error (.nb (.apiParsingError noMultiSelectMsg))
      else
        match jLookupExc props tagsName with
        | .error e => .error (.py e)
        | .ok col =>
          match pyNextIter col with
          | .error e => .error (.py e)
          | .ok wrong => .error (.nb (.apiParsingError (wrongTypeMsg tagsName wrong)))
    | .error e => .error (.py e)

/-- `get_tags` as called on a controller: the tag column name is read from
`settings['tags_name']` first (KeyError if absent). -/
def ctlGetTags (st : Settings) (response : JValue) : Except Failure (List JValue) :=
  match sGet st "tags_name" with
  | .error e => .error (.py e)
  | .ok tagsName => getTags tagsName response

/-! ## get_count -/

/-- The subscription chain `r['properties'][amount_name]['number']`. -/
def amountChain (amountName : String) (r : JValue) : Except PyExc JValue :=
  match jLookupExc r "properties" with
  | .error e => .error e
  | .ok p =>
    match jLookupExc p amountName with
    | .error e => .error e
    | .ok a => jLookupExc a "number"

/-- One record of `get_count`'s summing loop:
`total_sum += r['properties'][amount_name]['number']` inside
`try ... except KeyError: pass`.  A `KeyError` anywhere in the chain
contributes zero; a `TypeError` (subscripting a non-dict, or adding a
non-numeric value — Python bools add as 0/1, everything else raises) is
not caught and escapes. -/
def recordContrib (amountName : String) (r : JValue) : Except PyExc ℚ :=
  match amountChain amountName r with
  | .error (.keyError _) => .ok 0
  | .error e => .error e
  | .ok (.num q) => .ok q
  | .ok (.bool b) => .ok (if b then 1 else 0)
  | .ok _ => .error (.typeError)

/-- Left fold of the summing loop over the records of one page, starting
from the running total `acc`. -/
def sumFrom (amountName : String) (acc : ℚ) : List JValue → Except PyExc ℚ
  | [] => .ok acc
  | r :: rest =>
    match recordContrib amountName r with
    | .error e => .error e
    | .ok q => sumFrom amountName (acc + q) rest

/-- The paging loop of `get_count`: each supplied response is processed in
order (`response['results']` summed, then `response['next_cursor']`
checked; a truthy cursor fetches the next response).  An exhausted
response list while the loop still wants a page models the remote never
answering again and cannot occur under the well-formedness hypotheses used
in the theorems. -/
def getCountLoop (amountName : String) (acc : ℚ) : List JValue → Except PyExc ℚ
  | [] => .error (.stopIteration)
  | r :: rest =>
    match jLookupExc r "results" with
    | .error e => .error e
    | .ok res =>
      match jIterExc res with
      | .error e => .error e
      | .ok items =>
        match sumFrom amountName acc items with
        | .error e => .error e
        | .ok acc2 =>
          match jLookupExc r "next_cursor" with
          | .error e => .error e
          | .ok cur =>
            if jTruthy cur then getCountLoop amountName acc2 rest else .ok acc2

/-- `NBudgetController.get_count()` over the sequence of parsed page
responses returned by the contents-query endpoint. -/
def getCount (amountName : String) (responses : List JValue) : Except PyExc ℚ :=
  getCountLoop amountName 0 responses

/-- Shape predicate for a response sequence: every response is a dict with
a `results` list and a `next_cursor` that is truthy exactly when another
page follows, and `pages` collects the `results` lists in order. -/
inductive WellPaged : List JValue → List (List JValue) → Prop
  | last (r : JValue) (p : List JValue) (cur : JValue) :
      jLookupExc r "results" = .ok (.arr p) →
      jLookupExc r "next_cursor" = .ok cur →
      jTruthy cur = false →
      WellPaged [r] [p]
  | step (r : JValue) (p : List JValue) (cur : JValue)
      (rest : List JValue) (prest : List (List JValue)) :
      jLookupExc r "results" = .ok (.arr p) →
      jLookupExc r "next_cursor" = .ok cur →
      jTruthy cur = true →
      WellPaged rest prest →
      WellPaged (r :: rest) (p :: prest)

/-! ## insert_record -/

/-- Value of the Type column in the payload. -/
def typeCell (recordType : String) : JValue :=
  .obj [("select", .obj [("name", .str recordType)])]

/-- Value of the Date column in the payload. -/
def dateCell (isoDate : String) : JValue :=
  .obj [("date", .obj [("start", .str isoDate)])]

/-- Value of the Concept column in the payload. -/
def conceptCell (concept : String) : JValue :=
  .obj [("title", .arr [.obj [("text", .obj [("content", .str concept)])]])]

/-- Value of the Amount column in the payload. -/
def numberCell (amount : ℚ) : JValue :=
  .obj [("number", .num amount)]

/-- Value of the Tags column: `{"multi_select": [{"name": t} for t in tags]}`. -/
def msCell (tags : List String) : JValue :=
  .obj [("multi_select", .arr (tags.map (fun t => .obj [("name", .str t)])))]

/-- The `properties` dict literal of the first build, with Python dict
semantics (a later duplicate column name overwrites an earlier one). -/
def mkProps (tn dn cn an recordType isoDate concept : String) (amount : ℚ) :
    List (String × JValue) :=
  pyUpdate (pyUpdate (pyUpdate (pyUpdate [] tn (typeCell recordType))
    dn (dateCell isoDate)) cn (conceptCell concept)) an (numberCell amount)

/-- The whole payload dict. -/
def mkData (dbid : String) (props : List (String × JValue)) : JValue :=
  .obj [("parent", .obj [("database_id", .str dbid)]), ("properties", .obj props)]

/-- The "First build" block of `insert_record`: reads the five column-name
settings (KeyError on a missing one, in the evaluation order of the dict
literal) and assembles the payload.  `record_type` and the sign of
`amount` come from the income flag:
`record_type = 'EXPENSE' if not income else 'INCOME'` and
`amount = -amount if not income else amount`. -/
def buildData (st : Settings) (concept : String) (amount : ℚ) (income : Bool)
    (isoDate : String) : Except PyExc JValue :=
  match sGet st "database_id" with
  | .error e => .error e
  | .ok dbid =>
    match sGet st "type_name" with
    | .error e => .error e
    | .ok tn =>
      match sGet st "date_name" with
      | .error e => .error e
      | .ok dn =>
        match sGet st "concept_name" with
        | .error e => .error e
        | .ok cn =>
          match sGet st "amount_name" with
          | .error e => .error e
          | .ok an =>
            .ok (mkData dbid (mkProps tn dn cn an
              (if income then "INCOME" else "EXPENSE") isoDate concept
              (if income then amount else -amount)))

/-- The date-parsing step of `insert_record`: a truthy `date` string goes
through `_format_date` with `settings['date_input_format']`; an empty one
uses today's date with the time component dropped. -/
def dateStep (st : Settings) (date : String) (today : PyDate) : Except Failure PyDate :=
  if date ≠ "" then
    match sGet st "date_input_format" with
    | .error e => .error (.py e)
    | .ok fmt =>
      match formatDate date fmt with
      | .ok d => .ok d
      | .error e => .error (.nb e)
  else .ok today

/-- Python truthiness of the `tags` argument (`None` and `[]` are falsy). -/
def tagsTruthy (tags : Option (List String)) : Bool :=
  match tags with
  | none => false
  | some l => !l.isEmpty

/-- `valid_options = self.tags_cache if self.tags_cache else self.get_tags()`. -/
def fetchOptions (st : Settings) (cache : List JValue) (tagsResponse : JValue) :
    Except Failure (List JValue) :=
  if !cache.isEmpty then .ok cache else ctlGetTags st tagsResponse

/-- `", ".join(valid_options)`: joining raises `TypeError` when any element
is not a string. -/
def joinOpts : List JValue → Except PyExc (List String)
  | [] => .ok []
  | .str s :: rest => (joinOpts rest).map (fun r => s :: r)
  | _ :: _ => .error (.typeError)

/-- The message of the `InvalidTag` error for tag `t`. -/
def invalidTagMsg (t : String) (opts : List String) : String :=
  "Tag does not exist in Notion db: \x22" ++ t ++ "\x22, use one of these:" ++
  sepJoin ", " opts

/-- The validation loop of `insert_record`: the first tag not present in
`valid_options` raises `InvalidTag` (building its message joins the
options, which raises `TypeError` on a non-string option). -/
def validateTags (opts : List JValue) : List String → Except Failure Unit
  | [] => .ok ()
  | t :: rest =>
    if jvalMem t opts then validateTags opts rest
    else
      match joinOpts opts with
      | .error e => .error (.py e)
      | .ok ss => .error (.nb (.invalidTag (invalidTagMsg t ss)))

/-- `data['properties'][settings['tags_name']] = {"multi_select": ...}`:
update of the nested properties dict. -/
def jSetProp (data : JValue) (k : String) (v : JValue) : JValue :=
  match data with
  | .obj kvs =>
    .obj (kvs.map (fun kv =>
      if kv.1 = "properties" then
        (kv.1, match kv.2 with
               | .obj props => JValue.obj (pyUpdate props k v)
               | other => other)
      else kv))
  | other => other

/-- `str(data).replace("'", '"').encode()`: the wire encoding the source
applies to the payload before calling the API. -/
def encodeBody (data : JValue) : String :=
  charReplace (pyStr data) '\x27' '\x22'

/-- `NBudgetController.insert_record(concept, amount, tags, income, date)`
up to (and including) the encoding of the request body; the final
`_api_call` transmission is outside the model.  `today` stands for the
current day, `tagsResponse` for the response the database-query endpoint
would give if `get_tags` is called, `cache` for `self.tags_cache`.
Returns the built payload and the encoded body. -/
def insertRecord (st : Settings) (concept : String) (amount : ℚ)
    (tags : Option (List String)) (income : Bool) (date : String)
    (today : PyDate) (tagsResponse : JValue) (cache : List JValue) :
    Except Failure (JValue × String) :=
  match dateStep st date today with
  | .error e => .error e
  | .ok dateObj =>
    match buildData st concept amount income (isoformat dateObj) with
    | .error e => .error (.py e)
    | .ok data0 =>
      if tagsTruthy tags then
        match fetchOptions st cache tagsResponse with
        | .error e => .error e
        | .ok opts =>
          match validateTags opts (tags.getD []) with
          | .error e => .error e
          | .ok _ =>
            match sGet st "tags_name" with
            | .error e => .error (.py e)
            | .ok gn =>
              .ok (jSetProp data0 gn (msCell (tags.getD [])),
                   encodeBody (jSetProp data0 gn (msCell (tags.getD []))))
      else
        .ok (data0, encodeBody data0)

/-- Lookup of a column cell in a built payload. -/
def getProp (p : JValue) (k : String) : Option JValue :=
  match p with
  | .obj kvs =>
    match lookupKV kvs "properties" with
    | some (.obj props) => lookupKV props k
    | _ => none
  | _ => none

/-- Whether a built payload contains a column key. -/
def hasProp (p : JValue) (k : String) : Bool :=
  (getProp p k).isSome

/-! ## Supporting lemmas -/

theorem lookupKV_pyUpdate_self (l : List (String × JValue)) (k : String) (v : JValue) :
    lookupKV (pyUpdate l k v) k = some v := by
  induction l with
  | nil => simp [pyUpdate, lookupKV]
  | cons kv rest ih =>
    by_cases h : kv.1 = k
    · simp [pyUpdate, h, lookupKV]
    · simp [pyUpdate, h, lookupKV, ih]

theorem lookupKV_pyUpdate_ne (l : List (String × JValue)) (k t : String) (v : JValue)
    (h : t ≠ k) : lookupKV (pyUpdate l k v) t = lookupKV l t := by
  induction l with
  | nil =>
    simp only [pyUpdate, lookupKV]
    rw [if_neg (Ne.symm h)]
  | cons kv rest ih =>
    simp only [pyUpdate]
    by_cases h0 : kv.1 = k
    · rw [if_pos h0]
      have hkt : kv.1 ≠ t := by rw [h0]; exact Ne.symm h
      simp only [lookupKV]
      rw [if_neg (Ne.symm h), if_neg hkt]
    · rw [if_neg h0]
      simp only [lookupKV]
      by_cases h1 : kv.1 = t
      · rw [if_pos h1, if_pos h1]
      · rw [if_neg h1, if_neg h1, ih]

/-- Value of a big-endian digit-character list under the `parseNat` fold. -/
def valC (cs : List Char) : Nat :=
  cs.foldl (fun a c => 10 * a + dVal c) 0

/-- Little-endian value of a digit list. -/
def ofLE : List Nat → Nat
  | [] => 0
  | d :: ds => d + 10 * ofLE ds

theorem digitsAux_ofLE : ∀ f n, n ≤ f → ofLE (digitsAux f n) = n := by
  intro f
  induction f with
  | zero => intro n hn; interval_cases n; simp [digitsAux, ofLE]
  | succ f ih =>
    intro n hn
    match n with
    | 0 => simp [digitsAux, ofLE]
    | n + 1 =>
      have hdiv : (n + 1) / 10 ≤ f := by
        have : (n + 1) / 10 < n + 1 := Nat.div_lt_self (Nat.succ_pos n) (by norm_num)
        omega
      simp only [digitsAux, ofLE, ih _ hdiv]
      omega

theorem digitsAux_lt : ∀ f n d, d ∈ digitsAux f n → d < 10 := by
  intro f
  induction f with
  | zero => intro n d h; simp [digitsAux] at h
  | succ f ih =>
    intro n d h
    match n with
    | 0 => simp [digitsAux] at h
    | n + 1 =>
      simp only [digitsAux, List.mem_cons] at h
      rcases h with h | h
      · subst h; exact Nat.mod_lt _ (by norm_num)
      · exact ih _ _ h

theorem digitsBE_lt (n d : Nat) (h : d ∈ digitsBE n) : d < 10 := by
  rw [digitsBE, List.mem_reverse] at h
  exact digitsAux_lt n n d h

theorem dChar_spec (d : Nat) (h : d < 10) :
    isDig (dChar d) = true ∧ isSp (dChar d) = false ∧ dChar d ≠ '+' ∧
    dChar d ≠ '-' ∧ dChar d ≠ '/' ∧ dVal (dChar d) = d := by
  interval_cases d <;> exact ⟨rfl, rfl, by decide, by decide, by decide, rfl⟩

theorem isSp_eq_false_of_isDig (c : Char) (h : isDig c = true) : isSp c = false := by
  simp only [isSp, Bool.or_eq_false_iff, decide_eq_false_iff_not]
  refine ⟨⟨⟨?_, ?_⟩, ?_⟩, ?_⟩ <;> rintro rfl <;> simp [isDig] at h

theorem dropWhile_isSp_eq_self (cs : List Char) (h : ∀ c ∈ cs, isSp c = false) :
    cs.dropWhile isSp = cs := by
  cases cs with
  | nil => rfl
  | cons c rest =>
    rw [List.dropWhile_cons, h c (List.mem_cons_self c rest)]
    simp

theorem trimSpaces_eq_self (cs : List Char) (h : ∀ c ∈ cs, isSp c = false) :
    trimSpaces cs = cs := by
  unfold trimSpaces
  rw [dropWhile_isSp_eq_self cs h,
      dropWhile_isSp_eq_self cs.reverse (fun c hc => h c (List.mem_reverse.mp hc)),
      List.reverse_reverse]

theorem foldl_val_reverse (le : List Nat) :
    ∀ acc : Nat, (le.reverse).foldl (fun a d => 10 * a + d) acc =
      acc * 10 ^ le.length + ofLE le := by
  induction le with
  | nil => intro acc; simp [ofLE]
  | cons d ds ih =>
    intro acc
    simp only [List.reverse_cons, List.foldl_append, List.foldl_cons, List.foldl_nil,
      ih, ofLE, List.length_cons]
    ring

theorem foldl_map_dChar (ds : List Nat) (h : ∀ d ∈ ds, d < 10) :
    ∀ acc : Nat, (ds.map dChar).foldl (fun a c => 10 * a + dVal c) acc =
      ds.foldl (fun a d => 10 * a + d) acc := by
  induction ds with
  | nil => intro acc; rfl
  | cons d ds ih =>
    intro acc
    simp only [List.map_cons, List.foldl_cons,
      (dChar_spec d (h d (List.mem_cons_self d ds))).2.2.2.2.2]
    exact ih (fun x hx => h x (List.mem_cons_of_mem d hx)) _

theorem foldl_zeros (k : Nat) :
    (List.replicate k '0').foldl (fun a c => 10 * a + dVal c) 0 = 0 := by
  induction k with
  | zero => rfl
  | succ k ih => simpa [List.replicate_succ, List.foldl_cons, dVal] using ih

theorem valC_padN (n w : Nat) :
    valC (List.replicate (w - (digitsBE n).length) '0' ++ (digitsBE n).map dChar) = n := by
  unfold valC
  rw [List.foldl_append, foldl_zeros,
      foldl_map_dChar (digitsBE n) (fun d hd => digitsBE_lt n d hd),
      digitsBE, foldl_val_reverse]
  simpa using digitsAux_ofLE n n le_rfl

theorem padN_chars_spec (n w : Nat) (c : Char)
    (h : c ∈ List.replicate (w - (digitsBE n).length) '0' ++ (digitsBE n).map dChar) :
    isDig c = true ∧ isSp c = false ∧ c ≠ '+' ∧ c ≠ '-' ∧ c ≠ '/' := by
  rw [List.mem_append] at h
  rcases h with h | h
  · rw [List.eq_of_mem_replicate h]
    exact ⟨rfl, rfl, by decide, by decide, by decide⟩
  · rcases List.mem_map.mp h with ⟨d, hd, rfl⟩
    have := dChar_spec d (digitsBE_lt n d hd)
    exact ⟨this.1, this.2.1, this.2.2.1, this.2.2.2.1, this.2.2.2.2.1⟩

theorem pyIntCore_digits (cs : List Char) (hne : cs ≠ [])
    (hall : ∀ c ∈ cs, isDig c = true) :
    pyIntCore cs = some (Int.ofNat (valC cs)) := by
  cases cs with
  | nil => exact absurd rfl hne
  | cons c rest =>
    have hc : isDig c = true := hall c (List.mem_cons_self c rest)
    have hplus : c ≠ '+' := by rintro rfl; exact absurd hc (by decide)
    have hminus : c ≠ '-' := by rintro rfl; exact absurd hc (by decide)
    simp only [pyIntCore]
    rw [if_neg hplus, if_neg hminus]
    have hp : parseNat (c :: rest) = some (valC (c :: rest)) := by
      simp [parseNat, List.all_eq_true.mpr hall, valC]
    rw [hp]
    rfl

theorem pyIntChars_digits (cs : List Char) (hne : cs ≠ [])
    (hall : ∀ c ∈ cs, isDig c = true) :
    pyIntChars cs = some (Int.ofNat (valC cs)) := by
  unfold pyIntChars
  rw [trimSpaces_eq_self cs (fun c hc => isSp_eq_false_of_isDig c (hall c hc))]
  exact pyIntCore_digits cs hne hall

theorem pyInt_padN (n w : Nat) : pyInt (padN (w + 1) n) = some (n : Int) := by
  unfold pyInt padN
  rw [List.asString]
  show pyIntChars (List.replicate (w + 1 - (digitsBE n).length) '0' ++
    (digitsBE n).map dChar) = some (n : Int)
  have hchars := padN_chars_spec n (w + 1)
  have hne : (List.replicate (w + 1 - (digitsBE n).length) '0' ++
      (digitsBE n).map dChar) ≠ [] := by
    intro hnil
    rcases List.append_eq_nil.mp hnil with ⟨h1, h2⟩
    have hl1 : w + 1 - (digitsBE n).length = 0 := by simpa using congrArg List.length h1
    have hl2 : (digitsBE n).length = 0 := by simpa using congrArg List.length h2
    omega
  rw [pyIntChars_digits _ hne (fun c hc => (hchars c hc).1), valC_padN n (w + 1)]
  rfl

theorem splitChars_no_sep (a : Char) (xs : List Char) (h : ∀ c ∈ xs, c ≠ a) :
    splitChars a xs = [xs] := by
  induction xs with
  | nil => rfl
  | cons c cs ih =>
    simp only [splitChars]
    rw [if_neg (h c (List.mem_cons_self c cs)),
        ih (fun x hx => h x (List.mem_cons_of_mem c hx))]

theorem splitChars_append_sep (a : Char) (xs ys : List Char) (h : ∀ c ∈ xs, c ≠ a) :
    splitChars a (xs ++ a :: ys) = xs :: splitChars a ys := by
  induction xs with
  | nil => simp [splitChars]
  | cons c cs ih =>
    simp only [List.cons_append, splitChars]
    rw [if_neg (h c (List.mem_cons_self c cs)), List.append_eq,
        ih (fun x hx => h x (List.mem_cons_of_mem c hx))]

theorem map_replace_no_occ (a b : Char) (l : List Char) (h : ∀ c ∈ l, c ≠ a) :
    l.map (fun c => if c = a then b else c) = l := by
  induction l with
  | nil => rfl
  | cons c cs ih =>
    simp only [List.map_cons]
    rw [if_neg (h c (List.mem_cons_self c cs)),
        ih (fun x hx => h x (List.mem_cons_of_mem c hx))]

/-- The character list behind `padN`. -/
def padChars (w n : Nat) : List Char :=
  List.replicate (w - (digitsBE n).length) '0' ++ (digitsBE n).map dChar

theorem padN_data (w n : Nat) : (padN w n).data = padChars w n := rfl

theorem padChars_ne (w n : Nat) (c : Char) (hc : c ∈ padChars w n) :
    c ≠ '-' ∧ c ≠ '/' := by
  have := padN_chars_spec n w c hc
  exact ⟨this.2.2.2.1, this.2.2.2.2⟩

theorem map_repl_chain (a b c : Nat) :
    ((padChars 4 a ++ '-' :: (padChars 2 b ++ '-' :: padChars 2 c)).map
      (fun ch => if ch = '-' then '/' else ch)) =
    padChars 4 a ++ '/' :: (padChars 2 b ++ '/' :: padChars 2 c) := by
  simp only [List.map_append, List.map_cons]
  rw [map_replace_no_occ _ _ _ (fun x hx => (padChars_ne 4 a x hx).1),
      map_replace_no_occ _ _ _ (fun x hx => (padChars_ne 2 b x hx).1),
      map_replace_no_occ _ _ _ (fun x hx => (padChars_ne 2 c x hx).1)]
  simp

theorem isoformat_data (dt : PyDate) :
    (isoformat dt).data =
    padChars 4 dt.year.toNat ++ '-' ::
      (padChars 2 dt.month.toNat ++ '-' :: padChars 2 dt.day.toNat) := by
  unfold isoformat
  rw [String.data_append, String.data_append, String.data_append, String.data_append]
  show padChars 4 dt.year.toNat ++ ['-'] ++ padChars 2 dt.month.toNat ++ ['-'] ++
    padChars 2 dt.day.toNat = _
  simp [List.append_assoc]

theorem pySplit_charReplace_isoformat (dt : PyDate) :
    pySplit (charReplace (isoformat dt) '-' '/') '/' =
      [padN 4 dt.year.toNat, padN 2 dt.month.toNat, padN 2 dt.day.toNat] := by
  show ((splitChars '/'
    ((isoformat dt).data.map (fun c => if c = '-' then '/' else c))).map List.asString) = _
  rw [isoformat_data dt, map_repl_chain]
  rw [splitChars_append_sep _ _ _ (fun x hx => (padChars_ne 4 _ x hx).2),
      splitChars_append_sep _ _ _ (fun x hx => (padChars_ne 2 _ x hx).2),
      splitChars_no_sep _ _ (fun x hx => (padChars_ne 2 _ x hx).2)]
  rfl

/-! ## Claims about _format_date (C3, C9, C8) -/

/-- C3: for every format string in which each of the tokens D, M, Y is
found (in particular every permutation of exactly those three tokens, and
formats with extra duplicate tokens), `_format_date` reads each date
component from the data position given by the first occurrence of the
corresponding letter in the format, so whenever the fields at those
demanded indices parse to a valid calendar date the result is that date —
independently of the token order. -/
theorem c3_date_token_order_irrelevant
    (date fmt : String) (iy im idd : Nat) (ys ms ds : String)
    (y m d : Int) (dt : PyDate)
    (hfY : pyIndex (pySplit fmt '/') "Y" = some iy)
    (hdY : (pySplit date '/').get? iy = some ys)
    (hfM : pyIndex (pySplit fmt '/') "M" = some im)
    (hdM : (pySplit date '/').get? im = some ms)
    (hfD : pyIndex (pySplit fmt '/') "D" = some idd)
    (hdD : (pySplit date '/').get? idd = some ds)
    (hy : pyInt ys = some y) (hm : pyInt ms = some m) (hd : pyInt ds = some d)
    (hmk : mkDate y m d = some dt) :
    formatDate date fmt = .ok dt := by
  simp only [formatDate, resolveSplit, hfY, hdY, hfM, hdM, hfD, hdD,
    resolveYMD, hy, hm, hd, hmk]

/-- Witness for C3 at the spec's example: format `M/Y/D` with data
`2/1996/10` yields day 10, month 2, year 1996. -/
theorem c3_witness :
    formatDate "2/1996/10" "M/Y/D" = .ok ⟨1996, 2, 10⟩ :=
  c3_date_token_order_irrelevant "2/1996/10" "M/Y/D" 1 0 2 "1996" "2" "10"
    1996 2 10 ⟨1996, 2, 10⟩ rfl rfl rfl rfl rfl rfl (by decide) (by decide)
    (by decide) (by decide)

/-- C9: when the format demands indices that all exist in the data but at
least one extracted year/month/day field is not parseable by `int()`
(e.g. `aa/bb/cccc` with `D/M/Y`), `_format_date` fails with
`InvalidDateRange` — the same error as for out-of-range numeric components
— and not with `InvalidDate` or `InvalidDateFormat`. -/
theorem c9_nonnumeric_fields_invalid_date_range
    (date fmt : String) (iy im idd : Nat) (ys ms ds : String)
    (hfY : pyIndex (pySplit fmt '/') "Y" = some iy)
    (hdY : (pySplit date '/').get? iy = some ys)
    (hfM : pyIndex (pySplit fmt '/') "M" = some im)
    (hdM : (pySplit date '/').get? im = some ms)
    (hfD : pyIndex (pySplit fmt '/') "D" = some idd)
    (hdD : (pySplit date '/').get? idd = some ds)
    (hbad : pyInt ys = none ∨ pyInt ms = none ∨ pyInt ds = none) :
    formatDate date fmt = .error (.invalidDateRange date) := by
  simp only [formatDate, resolveSplit, hfY, hdY, hfM, hdM, hfD, hdD, resolveYMD]
  rcases hbad with hb | hb | hb <;>
    cases h1 : pyInt ys <;> cases h2 : pyInt ms <;> cases h3 : pyInt ds <;>
      simp_all

/-- Witness for C9 at data `aa/bb/cccc` with format `D/M/Y`. -/
theorem c9_witness :
    formatDate "aa/bb/cccc" "D/M/Y" = .error (.invalidDateRange "aa/bb/cccc") :=
  c9_nonnumeric_fields_invalid_date_range "aa/bb/cccc" "D/M/Y" 2 1 0
    "cccc" "bb" "aa" rfl rfl rfl rfl rfl rfl (Or.inl (by decide))

/-- Counterexample to C8: `_format_date` splits only on `/`, so the actual
ISO 8601 serialization of a valid date (hyphen-separated) does not resolve
back to the date: with the matching slash format `Y/M/D` the whole string
is one field and the demanded index 1 is out of range (`InvalidDate`), and
with a hyphenated format `Y-M-D` the token `Y` is never found
(`InvalidDateFormat`). -/
theorem c8_counterexample :
    isoformat ⟨1996, 10, 2⟩ = "1996-10-02" ∧
    formatDate (isoformat ⟨1996, 10, 2⟩) "Y/M/D" =
      .error (.invalidDate "1996-10-02") ∧
    formatDate (isoformat ⟨1996, 10, 2⟩) "Y-M-D" =
      .error (.invalidDateFormat "Y-M-D") := by
  exact ⟨rfl, rfl, rfl⟩

/-- C8 as amended: date resolution is idempotent on the slash-delimited
rendering of its own output — for every valid calendar date, replacing the
hyphens of its ISO serialization by the resolver's hardcoded `/` separator
and resolving through the matching format `Y/M/D` yields the same date. -/
theorem c8_amended_slash_serialization_roundtrip
    (y m d : Int) (dt : PyDate) (h : mkDate y m d = some dt) :
    formatDate (charReplace (isoformat dt) '-' '/') "Y/M/D" = .ok dt := by
  unfold mkDate at h
  by_cases hb : 1 ≤ y ∧ y ≤ 9999 ∧ 1 ≤ m ∧ m ≤ 12 ∧ 1 ≤ d ∧ d ≤ daysInMonth y m
  case neg => rw [if_neg hb] at h; exact absurd h (by simp)
  rw [if_pos hb] at h
  injection h with h2
  subst h2
  have hpy : pyInt (padN 4 y.toNat) = some y := by
    rw [show (4 : Nat) = 3 + 1 from rfl, pyInt_padN y.toNat 3,
        Int.toNat_of_nonneg (by omega : (0 : Int) ≤ y)]
  have hpm : pyInt (padN 2 m.toNat) = some m := by
    rw [show (2 : Nat) = 1 + 1 from rfl, pyInt_padN m.toNat 1,
        Int.toNat_of_nonneg (by omega : (0 : Int) ≤ m)]
  have hpd : pyInt (padN 2 d.toNat) = some d := by
    rw [show (2 : Nat) = 1 + 1 from rfl, pyInt_padN d.toNat 1,
        Int.toNat_of_nonneg (by omega : (0 : Int) ≤ d)]
  have hY : pyIndex ["Y", "M", "D"] "Y" = some 0 := rfl
  have hM : pyIndex ["Y", "M", "D"] "M" = some 1 := rfl
  have hD : pyIndex ["Y", "M", "D"] "D" = some 2 := rfl
  have hsf : pySplit "Y/M/D" '/' = ["Y", "M", "D"] := rfl
  have hmk : mkDate y m d = some ⟨y, m, d⟩ := by rw [mkDate, if_pos hb]
  simp only [formatDate, pySplit_charReplace_isoformat ⟨y, m, d⟩, hsf,
    resolveSplit, hY, hM, hD, List.get?, resolveYMD, hpy, hpm, hpd, hmk]

/-- Witness for the amended C8 at the date 1996-10-02. -/
theorem c8_witness :
    formatDate (charReplace (isoformat ⟨1996, 10, 2⟩) '-' '/') "Y/M/D" =
      .ok ⟨1996, 10, 2⟩ :=
  c8_amended_slash_serialization_roundtrip 1996 10 2 ⟨1996, 10, 2⟩ (by decide)

/-! ## Claims about _api_call error classification (C4) -/

/-- Counterexample to C4: an error body that parses as JSON but carries no
`code` field (here the empty object, i.e. body `"{}"`) is in the claim's
class of failures, yet the classification raises an uncaught
`KeyError('code')` — not the controller's `HTTPError` — because the inner
`except` of `_api_call` only catches `json.decoder.JSONDecodeError`. -/
theorem c4_counterexample :
    classifyHTTPError 400 (some (.obj [])) = .py (.keyError "code") ∧
    (classifyHTTPError 400 (some (.obj []))).isHTTPError = false := by
  exact ⟨rfl, rfl⟩

/-- C4 as amended: for every failed remote call whose error body fails
JSON decoding altogether, the error surfaces as the controller's
`HTTPError` — with the client-identity (User-Agent) hint when the HTTP
status is 403 and carrying the raw status otherwise.  (A body that decodes
as JSON but lacks `code` or `message`, or is not an object, instead
escapes as an uncaught `KeyError`/`TypeError`.) -/
theorem c4_amended_json_decode_failure_http_error (status : Int) :
    (status = 403 →
      classifyHTTPError status none = .nb (.httpError (uaHintMsg status))) ∧
    (status ≠ 403 →
      classifyHTTPError status none = .nb (.httpError (intRepr status))) := by
  constructor
  · intro h
    simp only [classifyHTTPError, if_pos h]
  · intro h
    simp only [classifyHTTPError, if_neg h]

/-- Witness for the amended C4 at statuses 403 and 503. -/
theorem c4_witness :
    classifyHTTPError 403 none =
      .nb (.httpError "403 -> Check your UA if you have modified the script") ∧
    classifyHTTPError 503 none = .nb (.httpError "503") := by
  constructor
  · rw [(c4_amended_json_decode_failure_http_error 403).1 rfl]
    rfl
  · rw [(c4_amended_json_decode_failure_http_error 503).2 (by decide)]
    rfl

/-! ## Claims about get_tags diagnostics (C6) -/

/-- A well-shaped multi_select column value, used in concrete responses. -/
def msColumn : JValue := .obj [("multi_select", .obj [("options", .arr [])])]

/-- Response whose properties hold a single multi_select column whose name
itself contains a comma: `"A, B"`. -/
def c6respOne : JValue := .obj [("properties", .obj [("A, B", msColumn)])]

/-- Response whose properties hold two multi_select columns `"A"`, `"B"`. -/
def c6respTwo : JValue :=
  .obj [("properties", .obj [("A", msColumn), ("B", msColumn)])]

/-- Counterexample to C6: the source has only two branches for the
missing-tag-column diagnostics (`len(multi_selects) >= 1` versus zero), so
the exactly-one-candidate case shares its message template with the
more-than-one case; with a single candidate column named `"A, B"` the
message is even identical to the one produced for the two candidates
`"A"`, `"B"` — the messages do not differ across the one/many cases. -/
theorem c6_counterexample :
    multiSelectCandidates (.obj [("A, B", msColumn)]) = .ok ["A, B"] ∧
    multiSelectCandidates (.obj [("A", msColumn), ("B", msColumn)]) =
      .ok ["A", "B"] ∧
    getTags "Tags" c6respOne =
      .error (.nb (.apiParsingError (couldItBeMsg "Tags" ["A, B"]))) ∧
    getTags "Tags" c6respTwo = getTags "Tags" c6respOne := by
  exact ⟨rfl, rfl, rfl, rfl⟩

/-- C6 as amended: on a response with a properties section that lacks the
configured tag-column name, `get_tags` fails with `APIParsingError`; the
zero-candidate case has its own message, while every candidate count ≥ 1
(one or many) uses one shared template embedding the comma-joined
candidate names — so the one- and many-candidate messages differ only
through the joined list and can coincide. -/
theorem c6_amended_missing_column_messages
    (tagsName : String) (kvs : List (String × JValue)) (cands : List String)
    (hmiss : lookupKV kvs tagsName = none)
    (hc : candAux kvs = .ok cands) :
    getTags tagsName (.obj [("properties", .obj kvs)]) =
      .error (.nb (.apiParsingError
        (if cands.isEmpty then noMultiSelectMsg
         else couldItBeMsg tagsName cands))) := by
  have h1 : jLookupExc (JValue.obj [("properties", JValue.obj kvs)]) "properties" =
      .ok (.obj kvs) := by
    simp [jLookupExc, lookupKV]
  have h2 : tagOptions (.obj kvs) tagsName = .error (.keyError tagsName) := by
    simp [tagOptions, jLookupExc, hmiss]
  have h3 : multiSelectCandidates (.obj kvs) = .ok cands := hc
  simp only [getTags, h1, h2, h3, if_pos rfl]
  cases cands with
  | nil => simp
  | cons c rest => simp

/-- Witness for the amended C6: a response with one foreign multi_select
column and the default tag-column name. -/
theorem c6_witness :
    getTags "Tags" (.obj [("properties", .obj [("Other", msColumn)])]) =
      .error (.nb (.apiParsingError (couldItBeMsg "Tags" ["Other"]))) := by
  have := c6_amended_missing_column_messages "Tags" [("Other", msColumn)]
    ["Other"] rfl rfl
  simpa using this

/-! ## Claims about controller construction and settings validation (C7) -/

/-- A settings mapping with eight of the nine required keys:
`tag_separator` is missing. -/
def c7settings : Settings :=
  [("database_id", "MY_DB_ID"), ("api_key", "MY_API_KEY"),
   ("date_input_format", "D/M/Y"),
   ("type_name", "Type"), ("date_name", "Date"),
   ("concept_name", "Concept"), ("amount_name", "Amount"),
   ("tags_name", "Tags")]

/-- A well-shaped database-query response with two tag options. -/
def c7response : JValue :=
  .obj [("properties", .obj [("Tags", .obj [("multi_select",
    .obj [("options", .arr [.obj [("name", .str "a")],
                            .obj [("name", .str "b")]])])])])]

/-- Counterexample to C7: for a settings mapping missing one of the nine
required keys (`tag_separator`), controller construction succeeds and a
full core operation (`get_tags`) also succeeds — no configuration error is
raised at construction or at the first core operation. -/
theorem c7_counterexample :
    sLookup c7settings "tag_separator" = none ∧
    initController c7settings = .ok ⟨c7settings,
      "https://api.notion.com/v1/databases/MY_DB_ID",
      "https://api.notion.com/v1/databases/MY_DB_ID/query",
      "Bearer MY_API_KEY"⟩ ∧
    ctlGetTags c7settings c7response = .ok [.str "a", .str "b"] := by
  exact ⟨rfl, rfl, rfl⟩

/-- C7 as amended: the controller performs no nine-key validation;
`__init__` reads only `database_id` and `api_key`, so construction
succeeds exactly when those two keys are present (any other key, such as
`tag_separator`, can be missing without any failure there — it surfaces,
if at all, as a plain `KeyError` when an operation first reads it; the
nine-key check lives in the `_read_settings` collaborator). -/
theorem c7_amended_init_reads_only_db_and_key (st : Settings) :
    (∃ c, initController st = .ok c) ↔
      ((sLookup st "database_id").isSome ∧ (sLookup st "api_key").isSome) := by
  cases h1 : sLookup st "database_id" <;> cases h2 : sLookup st "api_key" <;>
    simp [initController, sGet, h1, h2]

/-! ## Claims about get_count (C5) -/

theorem sumFrom_append (an : String) (xs ys : List JValue) :
    ∀ acc : ℚ, sumFrom an acc (xs ++ ys) =
      (match sumFrom an acc xs with
       | .error e => .error e
       | .ok a2 => sumFrom an a2 ys) := by
  induction xs with
  | nil => intro acc; simp [sumFrom]
  | cons r rest ih =>
    intro acc
    simp only [List.cons_append, sumFrom]
    cases recordContrib an r with
    | error e => rfl
    | ok q => exact ih (acc + q)

theorem getCountLoop_eq_sumFrom (an : String) (responses : List JValue)
    (pages : List (List JValue)) (hw : WellPaged responses pages) :
    ∀ acc : ℚ, getCountLoop an acc responses = sumFrom an acc pages.flatten := by
  induction hw with
  | last r p cur hres hcur htr =>
    intro acc
    simp only [getCountLoop, hres, jIterExc, List.flatten, List.append_nil]
    cases hs : sumFrom an acc p with
    | error e => rfl
    | ok a2 => simp [hcur, htr]
  | step r p cur rest prest hres hcur htr _ ih =>
    intro acc
    simp only [getCountLoop, hres, jIterExc, List.flatten,
      sumFrom_append an p prest.flatten acc]
    cases hs : sumFrom an acc p with
    | error e => rfl
    | ok a2 => simp [hcur, htr, ih a2]

/-- A record whose `properties` dict has no amount column at all. -/
def c5recMissing : JValue := .obj [("properties", .obj [])]

/-- A record with an empty (null) amount cell, as the remote returns for a
partially-filled row. -/
def c5recNull : JValue :=
  .obj [("properties", .obj [("Amount", .obj [("number", .null)])])]

/-- A record carrying the amount `q`. -/
def c5recNum (q : ℚ) : JValue :=
  .obj [("properties", .obj [("Amount", .obj [("number", .num q)])])]

/-- Counterexample to C5: an amount cell that is present but null — an
"unexpected shape" in the claim's sense, and exactly what the remote
returns for a partially-filled record — is added to the running total,
which raises an uncaught `TypeError`: `get_count` fails fatally instead of
treating the record as zero.  Only a missing key (`KeyError`) is
tolerated. -/
theorem c5_counterexample :
    recordContrib "Amount" c5recNull = .error .typeError ∧
    getCount "Amount"
      [.obj [("results", .arr [c5recNull]), ("next_cursor", .null)]] =
      .error .typeError := by
  exact ⟨rfl, rfl⟩

/-- C5 as amended: over every well-formed paged response sequence
(`next_cursor` followed until falsy), `get_count` computes exactly the
left fold of the per-record contributions over all records of all pages,
where a record whose amount lookup chain hits a missing key contributes
zero; and any record whose amount chain fails with a `KeyError` anywhere
(`properties`, the amount column, or `number` missing) contributes zero
rather than failing.  (A present but non-numeric amount value instead
raises an uncaught `TypeError`, per the counterexample.) -/
theorem c5_amended_missing_amount_contributes_zero
    (an : String) (responses : List JValue) (pages : List (List JValue))
    (hw : WellPaged responses pages) :
    getCount an responses = sumFrom an 0 pages.flatten ∧
    (∀ (r : JValue) (k : String),
      amountChain an r = .error (.keyError k) → recordContrib an r = .ok 0) := by
  constructor
  · exact getCountLoop_eq_sumFrom an responses pages hw 0
  · intro r k hk
    simp [recordContrib, hk]

/-- Witness for the amended C5: two pages, the first with amounts 5 and a
missing-amount record, the second with amount 7; the result is the fold of
the contributions, i.e. 12, and the missing-amount record contributes 0. -/
theorem c5_witness :
    getCount "Amount"
      [.obj [("results", .arr [c5recNum 5, c5recMissing]),
             ("next_cursor", .str "abc")],
       .obj [("results", .arr [c5recNum 7]), ("next_cursor", .null)]] =
      sumFrom "Amount" 0 (List.flatten [[c5recNum 5, c5recMissing], [c5recNum 7]]) ∧
    recordContrib "Amount" c5recMissing = .ok 0 ∧
    sumFrom "Amount" 0 (List.flatten [[c5recNum 5, c5recMissing], [c5recNum 7]]) =
      .ok 12 := by
  have h := c5_amended_missing_amount_contributes_zero "Amount"
    [.obj [("results", .arr [c5recNum 5, c5recMissing]),
           ("next_cursor", .str "abc")],
     .obj [("results", .arr [c5recNum 7]), ("next_cursor", .null)]]
    [[c5recNum 5, c5recMissing], [c5recNum 7]]
    (.step _ _ _ _ _ rfl rfl rfl (.last _ _ _ rfl rfl rfl))
  refine ⟨h.1, h.2 c5recMissing "Amount" rfl, ?_⟩
  show sumFrom "Amount" 0 [c5recNum 5, c5recMissing, c5recNum 7] = .ok 12
  simp only [sumFrom, recordContrib, amountChain, jLookupExc,
    c5recNum, c5recMissing]
  norm_num [lookupKV]

/-! ## Claims about the insert_record payload (C1, C2, C10) -/

theorem getProp_mkData (dbid : String) (props : List (String × JValue)) (k : String) :
    getProp (mkData dbid props) k = lookupKV props k := by
  simp [getProp, mkData, lookupKV]

theorem lookupKV_mkProps_type (tn dn cn an rt iso concept : String) (amt : ℚ)
    (hd : tn ≠ dn) (hc : tn ≠ cn) (ha : tn ≠ an) :
    lookupKV (mkProps tn dn cn an rt iso concept amt) tn = some (typeCell rt) := by
  unfold mkProps
  rw [lookupKV_pyUpdate_ne _ _ _ _ ha, lookupKV_pyUpdate_ne _ _ _ _ hc,
      lookupKV_pyUpdate_ne _ _ _ _ hd, lookupKV_pyUpdate_self]

theorem lookupKV_mkProps_amount (tn dn cn an rt iso concept : String) (amt : ℚ) :
    lookupKV (mkProps tn dn cn an rt iso concept amt) an = some (numberCell amt) := by
  unfold mkProps
  rw [lookupKV_pyUpdate_self]

/-- C1: whenever `insert_record` reaches the payload-build step (the five
settings keys resolve; the build happens right after date parsing), the
built payload's Type column cell is `{"select": {"name": "INCOME"}}` when
`income` is true and `"EXPENSE"` otherwise, and its Amount column cell is
`{"number": amount}` when `income` is true and `{"number": -amount}`
otherwise — assuming the configured Type column name does not collide with
the other three column names (a collision would overwrite the entry, as in
a Python dict literal). -/
theorem c1_payload_type_and_amount_sign
    (st : Settings) (concept : String) (amount : ℚ) (income : Bool)
    (isoDate : String) (dbid tn dn cn an : String)
    (h1 : sGet st "database_id" = .ok dbid)
    (h2 : sGet st "type_name" = .ok tn)
    (h3 : sGet st "date_name" = .ok dn)
    (h4 : sGet st "concept_name" = .ok cn)
    (h5 : sGet st "amount_name" = .ok an)
    (hd : tn ≠ dn) (hc : tn ≠ cn) (ha : tn ≠ an) :
    ∃ p, buildData st concept amount income isoDate = .ok p ∧
      getProp p tn = some (typeCell (if income then "INCOME" else "EXPENSE")) ∧
      getProp p an = some (numberCell (if income then amount else -amount)) := by
  refine ⟨mkData dbid (mkProps tn dn cn an (if income then "INCOME" else "EXPENSE")
    isoDate concept (if income then amount else -amount)), ?_, ?_, ?_⟩
  · simp only [buildData, h1, h2, h3, h4, h5]
  · rw [getProp_mkData, lookupKV_mkProps_type _ _ _ _ _ _ _ _ hd hc ha]
  · rw [getProp_mkData, lookupKV_mkProps_amount]

/-- Witness for C1 with the default settings, amount 1200 and both income
flags: the expense build carries EXPENSE and -1200, the income build
INCOME and +1200. -/
theorem c1_witness :
    (∃ p, buildData (getDefaultSettings "MY_DB_ID" "MY_API_KEY")
        "My Concept" 1200 false "2019-01-12" = .ok p ∧
      getProp p "Type" = some (typeCell "EXPENSE") ∧
      getProp p "Amount" = some (numberCell (-1200))) ∧
    (∃ p, buildData (getDefaultSettings "MY_DB_ID" "MY_API_KEY")
        "My Concept" 1200 true "2019-01-12" = .ok p ∧
      getProp p "Type" = some (typeCell "INCOME") ∧
      getProp p "Amount" = some (numberCell 1200)) := by
  constructor
  · have h := c1_payload_type_and_amount_sign
      (getDefaultSettings "MY_DB_ID" "MY_API_KEY") "My Concept" 1200 false
      "2019-01-12" "MY_DB_ID" "Type" "Date" "Concept" "Amount"
      rfl rfl rfl rfl rfl (by decide) (by decide) (by decide)
    simpa using h
  · have h := c1_payload_type_and_amount_sign
      (getDefaultSettings "MY_DB_ID" "MY_API_KEY") "My Concept" 1200 true
      "2019-01-12" "MY_DB_ID" "Type" "Date" "Concept" "Amount"
      rfl rfl rfl rfl rfl (by decide) (by decide) (by decide)
    simpa using h

theorem validateTags_ok_of_all (opts : List JValue) (tl : List String)
    (h : ∀ t ∈ tl, jvalMem t opts = true) :
    validateTags opts tl = .ok () := by
  induction tl with
  | nil => rfl
  | cons t rest ih =>
    simp only [validateTags, h t (List.mem_cons_self t rest)]
    exact ih (fun x hx => h x (List.mem_cons_of_mem t hx))

theorem joinOpts_ok_of_strs (opts : List JValue)
    (h : ∀ v ∈ opts, ∃ s, v = .str s) :
    ∃ ss, joinOpts opts = .ok ss := by
  induction opts with
  | nil => exact ⟨[], rfl⟩
  | cons v rest ih =>
    obtain ⟨s, rfl⟩ := h v (List.mem_cons_self v rest)
    obtain ⟨ss, hss⟩ := ih (fun x hx => h x (List.mem_cons_of_mem _ hx))
    exact ⟨s :: ss, by simp [joinOpts, hss, Except.map]⟩

theorem validateTags_invalid (opts : List JValue) (tl : List String) (t : String)
    (hstr : ∀ v ∈ opts, ∃ s, v = .str s)
    (ht : t ∈ tl) (hbad : jvalMem t opts = false) :
    ∃ msg, validateTags opts tl = .error (.nb (.invalidTag msg)) := by
  induction tl with
  | nil => exact absurd ht (List.not_mem_nil t)
  | cons x rest ih =>
    by_cases hx : jvalMem x opts = true
    · have htr : t ∈ rest := by
        rcases List.mem_cons.mp ht with rfl | h
        · rw [hx] at hbad; exact absurd hbad (by decide)
        · exact h
      obtain ⟨msg, hmsg⟩ := ih htr
      exact ⟨msg, by simp only [validateTags, hx]; exact hmsg⟩
    · obtain ⟨ss, hss⟩ := joinOpts_ok_of_strs opts hstr
      refine ⟨invalidTagMsg x ss, ?_⟩
      simp only [validateTags, if_neg hx, hss]

theorem getProp_jSetProp_mkData (dbid : String) (props : List (String × JValue))
    (k : String) (v : JValue) :
    getProp (jSetProp (mkData dbid props) k v) k = some v := by
  simp only [jSetProp, mkData, getProp, List.map_cons, List.map_nil]
  simp [lookupKV, lookupKV_pyUpdate_self]

theorem lookupKV_mkProps_none (tn dn cn an rt iso concept : String) (amt : ℚ)
    (gn : String) (hg1 : gn ≠ tn) (hg2 : gn ≠ dn) (hg3 : gn ≠ cn) (hg4 : gn ≠ an) :
    lookupKV (mkProps tn dn cn an rt iso concept amt) gn = none := by
  unfold mkProps
  rw [lookupKV_pyUpdate_ne _ _ _ _ hg4, lookupKV_pyUpdate_ne _ _ _ _ hg3,
      lookupKV_pyUpdate_ne _ _ _ _ hg2, lookupKV_pyUpdate_ne _ _ _ _ hg1]
  rfl

/-- C2: the built payload contains the tags column key exactly when the
tags argument is truthy (non-empty and not absent) — an omitted/empty tags
argument leaves the key out entirely; when tags are supplied, the options
are taken from the cache (fetched via `get_tags` only when the cache is
empty, which is what `fetchOptions` states), every supplied tag is
validated against them before the key is added (an invalid tag aborts the
call with `InvalidTag` and no payload is produced), and on success the
tags cell holds the multi-value list of the supplied tags.  Column-name
hypotheses keep the configured names distinct, as in any usable
configuration. -/
theorem c2_tags_key_iff_nonempty_and_validated
    (st : Settings) (concept : String) (amount : ℚ) (tags : Option (List String))
    (income : Bool) (date : String) (today : PyDate) (resp : JValue)
    (cache : List JValue) (dbid tn dn cn an gn : String) (d0 : PyDate)
    (opts : List JValue)
    (h1 : sGet st "database_id" = .ok dbid)
    (h2 : sGet st "type_name" = .ok tn)
    (h3 : sGet st "date_name" = .ok dn)
    (h4 : sGet st "concept_name" = .ok cn)
    (h5 : sGet st "amount_name" = .ok an)
    (h6 : sGet st "tags_name" = .ok gn)
    (hg1 : gn ≠ tn) (hg2 : gn ≠ dn) (hg3 : gn ≠ cn) (hg4 : gn ≠ an)
    (hdt : dateStep st date today = .ok d0)
    (hfo : fetchOptions st cache resp = .ok opts) :
    (∀ p b, insertRecord st concept amount tags income date today resp cache =
        .ok (p, b) → hasProp p gn = tagsTruthy tags) ∧
    (tagsTruthy tags = true →
      (∀ t ∈ tags.getD [], jvalMem t opts = true) →
      insertRecord st concept amount tags income date today resp cache =
        .ok (jSetProp (mkData dbid (mkProps tn dn cn an
              (if income then "INCOME" else "EXPENSE") (isoformat d0) concept
              (if income then amount else -amount))) gn (msCell (tags.getD [])),
          encodeBody (jSetProp (mkData dbid (mkProps tn dn cn an
              (if income then "INCOME" else "EXPENSE") (isoformat d0) concept
              (if income then amount else -amount))) gn (msCell (tags.getD [])))) ∧
      getProp (jSetProp (mkData dbid (mkProps tn dn cn an
              (if income then "INCOME" else "EXPENSE") (isoformat d0) concept
              (if income then amount else -amount))) gn (msCell (tags.getD []))) gn =
        some (msCell (tags.getD []))) ∧
    (tagsTruthy tags = true →
      (∀ v ∈ opts, ∃ s, v = .str s) →
      ∀ t ∈ tags.getD [], jvalMem t opts = false →
      ∃ msg, insertRecord st concept amount tags income date today resp cache =
        .error (.nb (.invalidTag msg))) := by
  have hred : insertRecord st concept amount tags income date today resp cache =
      (if tagsTruthy tags = true then
        match validateTags opts (tags.getD []) with
        | .error e => .error e
        | .ok _ =>
          .ok (jSetProp (mkData dbid (mkProps tn dn cn an
                (if income then "INCOME" else "EXPENSE") (isoformat d0) concept
                (if income then amount else -amount))) gn (msCell (tags.getD [])),
            encodeBody (jSetProp (mkData dbid (mkProps tn dn cn an
                (if income then "INCOME" else "EXPENSE") (isoformat d0) concept
                (if income then amount else -amount))) gn (msCell (tags.getD []))))
       else
        .ok (mkData dbid (mkProps tn dn cn an
              (if income then "INCOME" else "EXPENSE") (isoformat d0) concept
              (if income then amount else -amount)),
          encodeBody (mkData dbid (mkProps tn dn cn an
              (if income then "INCOME" else "EXPENSE") (isoformat d0) concept
              (if income then amount else -amount))))) := by
    simp only [insertRecord, hdt, buildData, h1, h2, h3, h4, h5, hfo, h6]
  refine ⟨?_, ?_, ?_⟩
  · intro p b hok
    rw [hred] at hok
    cases htt : tagsTruthy tags with
    | false =>
      rw [htt] at hok
      simp only [Bool.false_eq_true, if_false] at hok
      injection hok with hpb
      have hp : p = mkData dbid (mkProps tn dn cn an
          (if income then "INCOME" else "EXPENSE") (isoformat d0) concept
          (if income then amount else -amount)) :=
        (congrArg Prod.fst hpb).symm
      subst hp
      rw [hasProp, getProp_mkData,
        lookupKV_mkProps_none _ _ _ _ _ _ _ _ _ hg1 hg2 hg3 hg4]
      rfl
    | true =>
      rw [htt] at hok
      simp only [if_true] at hok
      cases hval : validateTags opts (tags.getD []) with
      | error e => rw [hval] at hok; exact absurd hok (by simp)
      | ok u =>
        rw [hval] at hok
        injection hok with hpb
        have hp : p = jSetProp (mkData dbid (mkProps tn dn cn an
            (if income then "INCOME" else "EXPENSE") (isoformat d0) concept
            (if income then amount else -amount))) gn (msCell (tags.getD [])) :=
          (congrArg Prod.fst hpb).symm
        subst hp
        rw [hasProp, getProp_jSetProp_mkData]
        rfl
  · intro htt hall
    refine ⟨?_, getProp_jSetProp_mkData _ _ _ _⟩
    rw [hred, if_pos htt, validateTags_ok_of_all opts (tags.getD []) hall]
  · intro htt hstr t ht hbad
    obtain ⟨msg, hmsg⟩ := validateTags_invalid opts (tags.getD []) t hstr ht hbad
    exact ⟨msg, by rw [hred, if_pos htt, hmsg]⟩

/-- Witness for C2 with the default settings: a valid tag is accepted and
the Tags cell appears in the payload; an unknown tag aborts with
`InvalidTag`; with no tags supplied the built payload has no Tags key. -/
theorem c2_witness :
    insertRecord (getDefaultSettings "MY_DB_ID" "MY_API_KEY") "My Concept" 1200
        (some ["Tag1"]) false "12/1/2019" ⟨2000, 1, 1⟩ .null [.str "Tag1"] =
      .ok (jSetProp (mkData "MY_DB_ID" (mkProps "Type" "Date" "Concept" "Amount"
            "EXPENSE" "2019-01-12" "My Concept" (-1200))) "Tags" (msCell ["Tag1"]),
        encodeBody (jSetProp (mkData "MY_DB_ID" (mkProps "Type" "Date" "Concept"
            "Amount" "EXPENSE" "2019-01-12" "My Concept" (-1200))) "Tags"
            (msCell ["Tag1"]))) ∧
    getProp (jSetProp (mkData "MY_DB_ID" (mkProps "Type" "Date" "Concept" "Amount"
        "EXPENSE" "2019-01-12" "My Concept" (-1200))) "Tags" (msCell ["Tag1"]))
      "Tags" = some (msCell ["Tag1"]) ∧
    (∃ msg, insertRecord (getDefaultSettings "MY_DB_ID" "MY_API_KEY") "My Concept"
        1200 (some ["Tag2"]) false "12/1/2019" ⟨2000, 1, 1⟩ .null [.str "Tag1"] =
      .error (.nb (.invalidTag msg))) ∧
    hasProp (mkData "MY_DB_ID" (mkProps "Type" "Date" "Concept" "Amount"
        "EXPENSE" "2019-01-12" "My Concept" (-1200))) "Tags" = false := by
  have hA := c2_tags_key_iff_nonempty_and_validated
    (getDefaultSettings "MY_DB_ID" "MY_API_KEY") "My Concept" 1200
    (some ["Tag1"]) false "12/1/2019" ⟨2000, 1, 1⟩ .null [.str "Tag1"]
    "MY_DB_ID" "Type" "Date" "Concept" "Amount" "Tags" ⟨2019, 1, 12⟩
    [.str "Tag1"] rfl rfl rfl rfl rfl rfl (by decide) (by decide) (by decide)
    (by decide) rfl rfl
  have hB := c2_tags_key_iff_nonempty_and_validated
    (getDefaultSettings "MY_DB_ID" "MY_API_KEY") "My Concept" 1200
    (some ["Tag2"]) false "12/1/2019" ⟨2000, 1, 1⟩ .null [.str "Tag1"]
    "MY_DB_ID" "Type" "Date" "Concept" "Amount" "Tags" ⟨2019, 1, 12⟩
    [.str "Tag1"] rfl rfl rfl rfl rfl rfl (by decide) (by decide) (by decide)
    (by decide) rfl rfl
  have hC := c2_tags_key_iff_nonempty_and_validated
    (getDefaultSettings "MY_DB_ID" "MY_API_KEY") "My Concept" 1200
    none false "12/1/2019" ⟨2000, 1, 1⟩ .null [.str "Tag1"]
    "MY_DB_ID" "Type" "Date" "Concept" "Amount" "Tags" ⟨2019, 1, 12⟩
    [.str "Tag1"] rfl rfl rfl rfl rfl rfl (by decide) (by decide) (by decide)
    (by decide) rfl rfl
  obtain ⟨hAok, hAprop⟩ := hA.2.1 rfl (by intro t ht; fin_cases ht; rfl)
  refine ⟨hAok, hAprop, ?_, ?_⟩
  · exact hB.2.2 rfl (by intro v hv; fin_cases hv; exact ⟨"Tag1", rfl⟩)
      "Tag2" (by simp) rfl
  · exact hC.1 _ _ rfl

set_option maxRecDepth 100000 in
/-- C10: for a concept containing a quote character (here `it's`), the
request body `insert_record` encodes — `str(data).replace("'", '"')` — is
not the JSON serialization of the built payload: the replacement turns
every single quote of the stringified dict into a double quote, so the
apostrophe inside the concept value is corrupted on the wire (the body
carries `"it"s"` where JSON would carry `"it's"`). -/
theorem c10_encoded_body_not_json :
    insertRecord (getDefaultSettings "MY_DB_ID" "MY_API_KEY") "it\x27s" 1200
        none false "12/1/2019" ⟨2000, 1, 1⟩ .null [] =
      .ok (mkData "MY_DB_ID" (mkProps "Type" "Date" "Concept" "Amount" "EXPENSE"
            "2019-01-12" "it\x27s" (-1200)),
        encodeBody (mkData "MY_DB_ID" (mkProps "Type" "Date" "Concept" "Amount"
            "EXPENSE" "2019-01-12" "it\x27s" (-1200)))) ∧
    encodeBody (mkData "MY_DB_ID" (mkProps "Type" "Date" "Concept" "Amount"
        "EXPENSE" "2019-01-12" "it\x27s" (-1200))) =
      charReplace (pyStr (mkData "MY_DB_ID" (mkProps "Type" "Date" "Concept"
        "Amount" "EXPENSE" "2019-01-12" "it\x27s" (-1200)))) '\x27' '\x22' ∧
    encodeBody (mkData "MY_DB_ID" (mkProps "Type" "Date" "Concept" "Amount"
        "EXPENSE" "2019-01-12" "it\x27s" (-1200))) ≠
      jsonDumps (mkData "MY_DB_ID" (mkProps "Type" "Date" "Concept" "Amount"
        "EXPENSE" "2019-01-12" "it\x27s" (-1200))) := by
  refine ⟨rfl, rfl, ?_⟩
  decide
